import Mathlib

/-!
Shallow embedding of `crates/uv/src/commands/project/environment.rs`:
the content-addressed cache for derived Python environments
(`CachedEnvironment::from_spec`, `CachedEnvironment::base_interpreter`)
and the ephemeral-overlay operations (`EphemeralEnvironment`).

External collaborators (resolver, installer, cache backend, virtualenv
constructor, `uv_cache_key` digests, `uv_fs` escaping) live in other crates
of the repository and are not part of the provided source; where their
behavior decides a claim they are modelled from the spec, and each such
definition is marked `Modelled from the spec:` in its doc comment.
-/

/-- A filesystem path, modelled as its list of components. -/
abbrev FsPath := List String

/-- A resolved package distribution, as treated by the resolution hasher:
its identity is the package name plus version/source identity
(`uv_distribution_types::Distribution`; the hash covers the whole distribution). -/
structure Distribution where
  name : String
  version : String
  source : String
deriving DecidableEq, Repr

/-- A resolution result: a collection of resolved distributions
(`uv_distribution_types::Resolution`, viewed through
`resolution.distributions()` as in the source). -/
abbrev Resolution := List Distribution

/-- Modelled from the spec: `uv_cache_key` digests are a "fixed-size content
hash derived deterministically from serializable input"; we model a 64-bit
accumulator mix step. -/
def mix (h x : Nat) : Nat := (h * 1000003 + x) % (2 ^ 64)

/-- Modelled from the spec: deterministic hash of a string. -/
def hashString (s : String) : Nat :=
  s.data.foldl (fun h c => mix h c.toNat) 5381

/-- Modelled from the spec: deterministic structural hash of a distribution,
covering its identity (name, version, source). -/
def hashDistribution (d : Distribution) : Nat :=
  mix (mix (hashString d.name) (hashString d.version)) (hashString d.source)

/-- Modelled from the spec: `uv_cache_key::hash_digest` applied to a sequence
of distributions, a deterministic structural hash of the ordered sequence. -/
def hash_digest (l : List Distribution) : Nat :=
  l.foldl (fun h d => mix h (hashDistribution d)) (l.length + 1)

/-- Modelled from the spec: `uv_cache_key::cache_digest` applied to a path:
a deterministic digest of the (canonicalized) executable path. -/
def cache_digest (p : FsPath) : Nat :=
  p.foldl (fun h s => mix h (hashString s)) 7

/-- The comparison used by `distributions.sort_unstable_by_key(|dist| dist.name())`:
distributions are ordered by package name. -/
def distributionLE (a b : Distribution) : Prop := a.name ≤ b.name

instance : DecidableRel distributionLE := fun a b => by
  unfold distributionLE; infer_instance

instance : IsTotal Distribution distributionLE := ⟨fun a b => le_total a.name b.name⟩

instance : IsTrans Distribution distributionLE := ⟨fun _ _ _ hab hbc => le_trans hab hbc⟩

/-- The name-sort performed at lines 148-149 of the source:
`distributions.sort_unstable_by_key(|dist| dist.name())`. Any sort by name
produces the same output on name-distinct lists, so an insertion sort is a
faithful model. -/
def sortDistributions (l : List Distribution) : List Distribution := List.insertionSort distributionLE l

/-- The resolution hash of lines 147-151: collect the distributions, sort by
package name, and hash the sorted sequence. -/
def resolutionHash (r : Resolution) : Nat := hash_digest (sortDistributions r)

/-- Two sorted-by-name lists that are permutations of each other and have
pairwise-distinct names are equal. -/
theorem sorted_nodup_unique :
    ∀ {l1 l2 : List Distribution}, l1.Perm l2 → l1.Sorted distributionLE → l2.Sorted distributionLE →
      (l1.map Distribution.name).Nodup → l1 = l2 := by
  intro l1
  induction l1 with
  | nil =>
    intro l2 hp _ _ _
    exact (hp.nil_eq).symm ▸ rfl
  | cons a t1 ih =>
    intro l2 hp hs1 hs2 hnd
    cases l2 with
    | nil => exact absurd hp.symm.nil_eq (by simp)
    | cons b t2 =>
      have hab : a = b := by
        by_contra hne
        have hbmem : b ∈ a :: t1 := hp.symm.subset (List.mem_cons_self b t2)
        have hamem : a ∈ b :: t2 := hp.subset (List.mem_cons_self a t1)
        have hb1 : b ∈ t1 := by
          rcases List.mem_cons.mp hbmem with h | h
          · exact absurd h.symm hne
          · exact h
        have ha2 : a ∈ t2 := by
          rcases List.mem_cons.mp hamem with h | h
          · exact absurd h hne
          · exact h
        have h1 : a.name ≤ b.name := List.rel_of_sorted_cons hs1 b hb1
        have h2 : b.name ≤ a.name := List.rel_of_sorted_cons hs2 a ha2
        have hname : a.name = b.name := le_antisymm h1 h2
        have : a.name ∉ t1.map Distribution.name := by
          simpa using (List.nodup_cons.mp hnd).1
        exact this (hname ▸ List.mem_map_of_mem Distribution.name hb1)
      subst hab
      have htp : t1.Perm t2 := hp.cons_inv
      have : t1 = t2 :=
        ih htp hs1.of_cons hs2.of_cons (List.nodup_cons.mp hnd).2
      rw [this]

/-- Sorting by name canonicalizes: two name-distinct permutations of the same
distributions sort to the same list. -/
theorem sortDistributions_perm_eq (r1 r2 : Resolution)
    (hperm : r1.Perm r2) (hnd : (r1.map Distribution.name).Nodup) :
    sortDistributions r1 = sortDistributions r2 := by
  have hs1 : (sortDistributions r1).Sorted distributionLE := List.sorted_insertionSort distributionLE r1
  have hs2 : (sortDistributions r2).Sorted distributionLE := List.sorted_insertionSort distributionLE r2
  have hp : (sortDistributions r1).Perm (sortDistributions r2) :=
    ((List.perm_insertionSort distributionLE r1).trans hperm).trans
      (List.perm_insertionSort distributionLE r2).symm
  have hnd' : ((sortDistributions r1).map Distribution.name).Nodup :=
    ((List.perm_insertionSort distributionLE r1).map Distribution.name).nodup_iff.mpr hnd
  exact sorted_nodup_unique hp hs1 hs2 hnd'

/-- C1: for any two resolutions holding the same distributions (a permutation,
with names pairwise distinct as in a `Resolution`, which is keyed by package
name), the resolution digest is equal: the distributions are sorted by package
name before hashing, so internal order never perturbs the digest. -/
theorem resolutionHash_perm_invariant (r1 r2 : Resolution)
    (hperm : r1.Perm r2) (hnd : (r1.map Distribution.name).Nodup) :
    resolutionHash r1 = resolutionHash r2 := by
  unfold resolutionHash
  rw [sortDistributions_perm_eq r1 r2 hperm hnd]

/-- Witness for C1 at the spec's own scenario: `[("b",1.0), ("a",2.0)]` and
`[("a",2.0), ("b",1.0)]` have identical resolution digests. -/
theorem resolutionHash_perm_invariant_witness :
    resolutionHash [⟨"b", "1.0", "s"⟩, ⟨"a", "2.0", "s"⟩] =
      resolutionHash [⟨"a", "2.0", "s"⟩, ⟨"b", "1.0", "s"⟩] :=
  resolutionHash_perm_invariant _ _ (by decide) (by decide)

/-- An interpreter identity: its executable path plus opaque version/ABI
markers (`uv_python::Interpreter`, opaque to this core). -/
structure Interpreter where
  sysExecutable : FsPath
  markers : Nat
deriving DecidableEq, Repr

/-- Modelled from the spec: a `PythonEnvironment` exposes a root, an
interpreter, an iterator of site-packages directories, and a `pyvenv.cfg`
key/value configuration file. -/
structure PythonEnvironment where
  root : FsPath
  interpreter : Interpreter
  site_packages : List FsPath
  pyvenvCfg : List (String × String)
deriving DecidableEq, Repr

/-- The error type of the module (`ProjectError`); collaborator errors are
opaque payloads that this core propagates. -/
inductive ProjectError where
  | noSitePackages
  | resolveError (code : Nat)
  | installError (code : Nat)
  | interpreterError (code : Nat)
  | ioError (code : Nat)
deriving DecidableEq, Repr

/-- An ephemeral `PythonEnvironment` for running an individual command
(lines 21-22 of the source: a newtype wrapper). -/
structure EphemeralEnvironment where
  env : PythonEnvironment
deriving DecidableEq, Repr

/-- A `PythonEnvironment` stored in the cache (lines 97-99 of the source:
a newtype wrapper). -/
structure CachedEnvironment where
  env : PythonEnvironment
deriving DecidableEq, Repr

/-- The `From<PythonEnvironment> for EphemeralEnvironment` conversion
(lines 24-28). -/
def EphemeralEnvironment.fromPython (environment : PythonEnvironment) :
    EphemeralEnvironment := ⟨environment⟩

/-- The `From<EphemeralEnvironment> for PythonEnvironment` conversion
(lines 30-34): returns the wrapped environment. -/
def PythonEnvironment.fromEphemeral (environment : EphemeralEnvironment) :
    PythonEnvironment := environment.env

/-- The `From<CachedEnvironment> for PythonEnvironment` conversion
(lines 101-105): returns the wrapped environment. -/
def PythonEnvironment.fromCached (environment : CachedEnvironment) :
    PythonEnvironment := environment.env

/-- Update (or append) a key in a `pyvenv.cfg` key/value list. -/
def setCfgKey : List (String × String) → String → String → List (String × String)
  | [], k, v => [(k, v)]
  | (k0, v0) :: t, k, v =>
    if k0 = k then (k, v) :: t else (k0, v0) :: setCfgKey t k v

/-- Read a key back from a `pyvenv.cfg` key/value list. -/
def lookupCfgKey : List (String × String) → String → Option String
  | [], _ => none
  | (k0, v0) :: t, k => if k0 = k then some v0 else lookupCfgKey t k

/-- Modelled from the spec: `PythonEnvironment::set_pyvenv_cfg` writes a
key/value pair into the environment's configuration file. -/
def PythonEnvironment.set_pyvenv_cfg (e : PythonEnvironment) (k v : String) :
    PythonEnvironment :=
  { e with pyvenvCfg := setCfgKey e.pyvenvCfg k v }

/-- Modelled from the spec: `uv_fs::PythonExt::escape_for_python` escapes a
character for safe embedding in Python source (backslashes and quotes). -/
def escapeChar (c : Char) : List Char :=
  if c = '\\' then ['\\', '\\']
  else if c = '"' then ['\\', '"']
  else [c]

/-- Modelled from the spec: the Python-embedding-safe escaped form of a
string. -/
def escape_for_python (s : String) : String :=
  String.mk (s.data.foldr (fun c acc => escapeChar c ++ acc) [])

/-- Render a path for embedding into a configuration value. -/
def renderPath (p : FsPath) : String := String.intercalate "/" p

/-- `EphemeralEnvironment::set_overlay` (lines 39-48): take the first
site-packages directory (failing with `NoSitePackages` if there is none) and
write the caller-supplied bytes to `_uv_ephemeral_overlay.pth` inside it.
The successful result is the filesystem write performed: target path and
written bytes. -/
def EphemeralEnvironment.set_overlay (e : EphemeralEnvironment)
    (contents : List Nat) : Except ProjectError (FsPath × List Nat) :=
  match e.env.site_packages with
  | [] => Except.error ProjectError.noSitePackages
  | site_packages :: _ =>
    Except.ok (site_packages ++ ["_uv_ephemeral_overlay.pth"], contents)

/-- `EphemeralEnvironment::set_system_site_packages` (lines 52-56): set
`include-system-site-packages` to `"true"` in `pyvenv.cfg`. -/
def EphemeralEnvironment.set_system_site_packages (e : EphemeralEnvironment) :
    EphemeralEnvironment :=
  ⟨e.env.set_pyvenv_cfg "include-system-site-packages" "true"⟩

/-- `EphemeralEnvironment::set_parent_environment` (lines 71-80): set
`extends-environment` in `pyvenv.cfg` to the escaped parent path. -/
def EphemeralEnvironment.set_parent_environment (e : EphemeralEnvironment)
    (parentRoot : FsPath) : EphemeralEnvironment :=
  ⟨e.env.set_pyvenv_cfg "extends-environment"
    (escape_for_python (renderPath parentRoot))⟩

/-- Modelled from the spec: `uv_virtualenv::Prompt` — the prompt
customization choice passed to the virtualenv constructor. -/
inductive Prompt where
  | none
  | static (s : String)
deriving DecidableEq, Repr

/-- Modelled from the spec: `uv_virtualenv::OnExisting` — what the virtualenv
constructor does with a pre-existing directory at the target. -/
inductive OnExisting where
  | allow
  | fail
  | remove
deriving DecidableEq, Repr

/-- Modelled from the spec: `Modifications` — the installer mode: `sufficient`
unions packages in, `exact` makes the installed set exactly match the
resolution, removing extraneous packages. -/
inductive Modifications where
  | sufficient
  | exact
deriving DecidableEq, Repr

/-- The arguments this module passes to `uv_virtualenv::create_venv`
(lines 183-193): target path, interpreter, prompt, whether system
site-packages are inherited, and the on-existing policy. -/
structure VenvRequest where
  path : FsPath
  interpreter : Interpreter
  prompt : Prompt
  system_site_packages : Bool
  on_existing : OnExisting
deriving DecidableEq, Repr

/-- The arguments this module passes to `sync_environment` (lines 195-210):
the freshly created environment, the resolution to install, and the
modification mode. -/
structure SyncRequest where
  venv : PythonEnvironment
  resolution : Resolution
  modifications : Modifications
deriving DecidableEq, Repr

/-- The observable effects of one `from_spec` run: how many delegated
resolutions ran, which virtualenv constructions and installer syncs were
requested, which scratch-to-cache publications happened, and how many
interpreter metadata queries were made. -/
structure Trace where
  resolveCalls : Nat
  venvCalls : List VenvRequest
  syncCalls : List SyncRequest
  persistCalls : List (FsPath × FsPath)
  queryCalls : Nat
deriving DecidableEq, Repr

/-- The environment `from_spec` runs against: outcomes of every external
collaborator call (resolver, cache backend, virtualenv constructor,
installer, interpreter queries, filesystem canonicalization). -/
structure World where
  isUnix : Bool
  find_base_python : Interpreter → Except ProjectError FsPath
  to_base_python : Interpreter → Except ProjectError FsPath
  query : FsPath → Except ProjectError Interpreter
  resolveOutcome : Except ProjectError Resolution
  canonicalize_executable : FsPath → Except ProjectError FsPath
  refreshRequested : Bool
  resolve_link : FsPath → Except ProjectError FsPath
  from_root : FsPath → Except ProjectError PythonEnvironment
  venv_dir : Except ProjectError Nat
  create_venv : VenvRequest → Except ProjectError PythonEnvironment
  syncOutcome : SyncRequest → Except ProjectError Unit
  persist : Nat → FsPath → Except ProjectError Nat
  archive : Nat → FsPath

/-- Modelled from the spec: `cache.venv_dir()` allocates private scratch
space; scratch directories live in their own namespace, disjoint from the
content-addressed `Environments` namespace. -/
def scratchPath (n : Nat) : FsPath := ["scratch", toString n]

/-- Modelled from the spec: `cache.entry(CacheBucket::Environments, d1, d2)`
maps the digest pair to `Environments/<interpreter_digest>/<resolution_digest>`
under the fixed bucket. -/
def entryPath (interpreterDigest resolutionDigest : Nat) : FsPath :=
  ["environments", toString interpreterDigest, toString resolutionDigest]

/-- `CachedEnvironment::base_interpreter` (lines 224-247): resolve the base
executable via symlinks on unix (`find_base_python`) or via base-prefix
elsewhere (`to_base_python`); if it equals the input's own executable, reuse
the input interpreter with no metadata query, else query the base path.
The `Nat` component counts interpreter metadata queries performed. -/
def base_interpreter (w : World) (interpreter : Interpreter) :
    Except ProjectError (Interpreter × Nat) :=
  match (if w.isUnix then w.find_base_python interpreter
         else w.to_base_python interpreter) with
  | Except.error e => Except.error e
  | Except.ok base_python =>
    if base_python = interpreter.sysExecutable then
      Except.ok (interpreter, 0)
    else
      match w.query base_python with
      | Except.error e => Except.error e
      | Except.ok base => Except.ok (base, 1)

/-- The cache-lookup segment of `from_spec` (lines 173-179): skipped when a
refresh is requested; otherwise resolve the entry's indirection and load an
environment from the resulting root, collapsing every failure into a miss
(`none`). -/
def cacheLookup (w : World) (cache_entry : FsPath) : Option PythonEnvironment :=
  if w.refreshRequested then none
  else
    match w.resolve_link cache_entry with
    | Except.error _ => none
    | Except.ok root =>
      match w.from_root root with
      | Except.error _ => none
      | Except.ok environment => some environment

/-- The build-and-publish segment of `from_spec` (lines 182-216): allocate
scratch space, create a venv there (prompt `None`, system site-packages off,
`OnExisting::Remove`), sync it to exactly match the resolution, persist the
scratch directory to the cache entry, and reload the environment from the
archived root. Alongside the result, the trace of effects is returned. -/
def build (w : World) (interpreter : Interpreter) (resolution : Resolution)
    (cache_entry : FsPath) (queries : Nat) :
    Except ProjectError CachedEnvironment × Trace :=
  match w.venv_dir with
  | Except.error e => (Except.error e, ⟨1, [], [], [], queries⟩)
  | Except.ok temp_dir =>
    let req : VenvRequest :=
      ⟨scratchPath temp_dir, interpreter, Prompt.none, false, OnExisting.remove⟩
    match w.create_venv req with
    | Except.error e => (Except.error e, ⟨1, [req], [], [], queries⟩)
    | Except.ok venv =>
      let sreq : SyncRequest := ⟨venv, resolution, Modifications.exact⟩
      match w.syncOutcome sreq with
      | Except.error e => (Except.error e, ⟨1, [req], [sreq], [], queries⟩)
      | Except.ok _ =>
        match w.persist temp_dir cache_entry with
        | Except.error e =>
          (Except.error e,
            ⟨1, [req], [sreq], [(scratchPath temp_dir, cache_entry)], queries⟩)
        | Except.ok id =>
          match w.from_root (w.archive id) with
          | Except.error e =>
            (Except.error e,
              ⟨1, [req], [sreq], [(scratchPath temp_dir, cache_entry)], queries⟩)
          | Except.ok environment =>
            (Except.ok ⟨environment⟩,
              ⟨1, [req], [sreq], [(scratchPath temp_dir, cache_entry)], queries⟩)

/-- `CachedEnvironment::from_spec` (lines 109-217): resolve the base
interpreter, perform the delegated resolution, hash the name-sorted
distributions and the canonicalized base executable, locate the cache entry,
try the cache lookup, and on a miss run the build-and-publish path. -/
def from_spec (w : World) (interpreter0 : Interpreter) :
    Except ProjectError CachedEnvironment × Trace :=
  match base_interpreter w interpreter0 with
  | Except.error e => (Except.error e, ⟨0, [], [], [], 0⟩)
  | Except.ok (interpreter, queries) =>
    match w.resolveOutcome with
    | Except.error e => (Except.error e, ⟨1, [], [], [], queries⟩)
    | Except.ok resolution =>
      let resolution_hash := resolutionHash resolution
      match w.canonicalize_executable interpreter.sysExecutable with
      | Except.error e => (Except.error e, ⟨1, [], [], [], queries⟩)
      | Except.ok canonical =>
        let interpreter_hash := cache_digest canonical
        let cache_entry := entryPath interpreter_hash resolution_hash
        match cacheLookup w cache_entry with
        | some environment =>
          (Except.ok ⟨environment⟩, ⟨1, [], [], [], queries⟩)
        | none => build w interpreter resolution cache_entry queries

deriving instance DecidableEq for Except

/-- A concrete interpreter used for witnesses. -/
def exInterp : Interpreter := ⟨["usr", "bin", "python3"], 0⟩

/-- A concrete environment used for witnesses. -/
def exEnv : PythonEnvironment :=
  ⟨["root"], exInterp, [["root", "lib", "site-packages"]], []⟩

/-- A concrete world in which every collaborator succeeds and the cache
lookup hits. -/
def exWorldHit : World :=
  { isUnix := true
    find_base_python := fun i => Except.ok i.sysExecutable
    to_base_python := fun i => Except.ok i.sysExecutable
    query := fun p => Except.ok ⟨p, 1⟩
    resolveOutcome := Except.ok [⟨"a", "1.0", "s"⟩]
    canonicalize_executable := fun p => Except.ok p
    refreshRequested := false
    resolve_link := fun _ => Except.ok ["archive", "0"]
    from_root := fun _ => Except.ok exEnv
    venv_dir := Except.ok 0
    create_venv := fun _ => Except.ok exEnv
    syncOutcome := fun _ => Except.ok ()
    persist := fun _ _ => Except.ok 0
    archive := fun n => ["archive", toString n] }

/-- A variant of the hit world with a forced refresh requested. -/
def exWorldRefresh : World := { exWorldHit with refreshRequested := true }

/-- A variant of the hit world in which virtualenv creation fails. -/
def exWorldVenvFail : World :=
  { exWorldHit with
    refreshRequested := true
    create_venv := fun _ => Except.error (ProjectError.ioError 7) }

/-- C10: the newtype wrappers are lossless: wrapping a `PythonEnvironment`
into an `EphemeralEnvironment` and converting back yields the same value, and
converting a `CachedEnvironment` back yields the environment it holds. -/
theorem wrapper_roundtrip (e : PythonEnvironment) :
    PythonEnvironment.fromEphemeral (EphemeralEnvironment.fromPython e) = e ∧
    PythonEnvironment.fromCached ⟨e⟩ = e :=
  ⟨rfl, rfl⟩

/-- Setting a key in a `pyvenv.cfg` key/value list makes a read of that key
return the written value. -/
theorem lookupCfgKey_setCfgKey (cfg : List (String × String)) (k v : String) :
    lookupCfgKey (setCfgKey cfg k v) k = some v := by
  induction cfg with
  | nil => simp [setCfgKey, lookupCfgKey]
  | cons p t ih =>
    by_cases h : p.1 = k
    · simp [setCfgKey, lookupCfgKey, h]
    · simpa [setCfgKey, lookupCfgKey, h] using ih

/-- C9: `set_parent_environment` stores the Python-embedding-escaped form of
the supplied parent path under the `extends-environment` key, so reading the
key back yields the escaped path; and `set_system_site_packages` stores the
string `"true"` under `include-system-site-packages`. -/
theorem cfg_writes_read_back (e : EphemeralEnvironment) (parentRoot : FsPath) :
    lookupCfgKey (e.set_parent_environment parentRoot).env.pyvenvCfg
        "extends-environment"
      = some (escape_for_python (renderPath parentRoot)) ∧
    lookupCfgKey e.set_system_site_packages.env.pyvenvCfg
        "include-system-site-packages"
      = some "true" := by
  constructor
  · exact lookupCfgKey_setCfgKey e.env.pyvenvCfg _ _
  · exact lookupCfgKey_setCfgKey e.env.pyvenvCfg _ _

/-- C8: on an environment with no site-packages directory `set_overlay` fails
with `NoSitePackages`; on an environment with at least one site-packages
directory it writes exactly the caller-supplied bytes to the file
`_uv_ephemeral_overlay.pth` in the first site-packages directory. -/
theorem set_overlay_spec (e : EphemeralEnvironment) (contents : List Nat) :
    (e.env.site_packages = [] →
      e.set_overlay contents = Except.error ProjectError.noSitePackages) ∧
    (∀ sp rest, e.env.site_packages = sp :: rest →
      e.set_overlay contents =
        Except.ok (sp ++ ["_uv_ephemeral_overlay.pth"], contents)) := by
  constructor
  · intro h
    simp [EphemeralEnvironment.set_overlay, h]
  · intro sp rest h
    simp [EphemeralEnvironment.set_overlay, h]

/-- Witness for C8: a site-packages-less environment fails with the
site-packages-absent condition. -/
theorem set_overlay_spec_witness :
    EphemeralEnvironment.set_overlay ⟨⟨["root"], exInterp, [], []⟩⟩ [1, 2]
      = Except.error ProjectError.noSitePackages :=
  (set_overlay_spec ⟨⟨["root"], exInterp, [], []⟩⟩ [1, 2]).1 rfl

/-- Counterexample for C2 as stated: in a world where the cache lookup hits,
`from_spec` returns the cached environment and skips installation
(no sync calls), yet the delegated resolution has still run exactly once —
resolution is performed before the lookup because the cache key is derived
from the resolution result, so it is not skipped on a cache hit. -/
theorem from_spec_hit_still_resolves :
    (from_spec exWorldHit exInterp).1 = Except.ok ⟨exEnv⟩ ∧
    (from_spec exWorldHit exInterp).2.syncCalls = [] ∧
    (from_spec exWorldHit exInterp).2.resolveCalls = 1 := by
  decide

/-- C2 (amended): on a cache hit (the entry's indirection resolves and the
environment loads), `from_spec` returns the cached environment and performs
no installation, no environment creation, and no cache publication; the
delegated resolution still runs exactly once, since the cache key is derived
from its result. -/
theorem from_spec_cache_hit (w : World) (i interp : Interpreter) (queries : Nat)
    (resolution : Resolution) (canonical root : FsPath)
    (env : PythonEnvironment)
    (hbase : base_interpreter w i = Except.ok (interp, queries))
    (hres : w.resolveOutcome = Except.ok resolution)
    (hcanon : w.canonicalize_executable interp.sysExecutable = Except.ok canonical)
    (hrefresh : w.refreshRequested = false)
    (hlink : w.resolve_link
        (entryPath (cache_digest canonical) (resolutionHash resolution))
      = Except.ok root)
    (hroot : w.from_root root = Except.ok env) :
    from_spec w i = (Except.ok ⟨env⟩, ⟨1, [], [], [], queries⟩) := by
  simp [from_spec, cacheLookup, hbase, hres, hcanon, hrefresh, hlink, hroot]

/-- Witness for C2 (amended) at the concrete hit world. -/
theorem from_spec_cache_hit_witness :
    from_spec exWorldHit exInterp = (Except.ok ⟨exEnv⟩, ⟨1, [], [], [], 0⟩) :=
  from_spec_cache_hit exWorldHit exInterp exInterp 0 [⟨"a", "1.0", "s"⟩]
    ["usr", "bin", "python3"] ["archive", "0"] exEnv
    (by decide) rfl rfl rfl rfl rfl

/-- C3: the cache lookup is fail-open: a forced refresh skips it and yields a
miss; a failing indirection resolution yields a miss; a failing environment
load yields a miss; and on any miss `from_spec` simply proceeds to the build
path rather than surfacing an error. -/
theorem cacheLookup_fail_open (w : World) (cache_entry : FsPath) :
    (w.refreshRequested = true → cacheLookup w cache_entry = none) ∧
    (∀ e, w.resolve_link cache_entry = Except.error e →
      cacheLookup w cache_entry = none) ∧
    (∀ root e, w.resolve_link cache_entry = Except.ok root →
      w.from_root root = Except.error e → cacheLookup w cache_entry = none) ∧
    (∀ i interp queries resolution canonical,
      base_interpreter w i = Except.ok (interp, queries) →
      w.resolveOutcome = Except.ok resolution →
      w.canonicalize_executable interp.sysExecutable = Except.ok canonical →
      cache_entry = entryPath (cache_digest canonical) (resolutionHash resolution) →
      cacheLookup w cache_entry = none →
      from_spec w i = build w interp resolution cache_entry queries) := by
  refine ⟨?_, ?_, ?_, ?_⟩
  · intro h
    simp [cacheLookup, h]
  · intro e he
    simp [cacheLookup, he]
  · intro root e hr he
    simp [cacheLookup, hr, he]
  · intro i interp queries resolution canonical hbase hres hcanon hentry hmiss
    subst hentry
    simp [from_spec, hbase, hres, hcanon, hmiss]

/-- Witness for C3: with a forced refresh requested, the lookup is a miss. -/
theorem cacheLookup_fail_open_witness :
    cacheLookup exWorldRefresh ["environments", "1", "2"] = none :=
  (cacheLookup_fail_open exWorldRefresh ["environments", "1", "2"]).1 rfl

/-- C4: on a miss the builder creates the environment in private scratch
space with the resolved base interpreter, no prompt, system site-packages
off, and removal of any pre-existing directory, then requests an installer
sync in `Exact` mode against the resolution; and scratch paths are never
cache-entry paths. -/
theorem build_on_miss (w : World) (interp : Interpreter) (res : Resolution)
    (cache_entry : FsPath) (queries d : Nat) (v : PythonEnvironment)
    (hd : w.venv_dir = Except.ok d)
    (hv : w.create_venv
        ⟨scratchPath d, interp, Prompt.none, false, OnExisting.remove⟩
      = Except.ok v) :
    (build w interp res cache_entry queries).2.venvCalls =
      [⟨scratchPath d, interp, Prompt.none, false, OnExisting.remove⟩] ∧
    (build w interp res cache_entry queries).2.syncCalls =
      [⟨v, res, Modifications.exact⟩] ∧
    (∀ ihash rhash, scratchPath d ≠ entryPath ihash rhash) := by
  refine ⟨?_, ?_, ?_⟩
  · simp only [build, hd, hv]
    split <;> (try split) <;> (try split) <;> rfl
  · simp only [build, hd, hv]
    split <;> (try split) <;> (try split) <;> rfl
  · intro ihash rhash h
    simp [scratchPath, entryPath] at h

/-- Witness for C4 at the concrete world: the venv request targets the
scratch directory with the fixed construction flags. -/
theorem build_on_miss_witness :
    (build exWorldHit exInterp [] ["environments", "1", "2"] 0).2.venvCalls =
      [⟨scratchPath 0, exInterp, Prompt.none, false, OnExisting.remove⟩] ∧
    scratchPath 0 ≠ entryPath 1 2 := by
  have h := build_on_miss exWorldHit exInterp [] ["environments", "1", "2"]
    0 0 exEnv rfl rfl
  exact ⟨h.1, h.2.2 1 2⟩

/-- C5: if environment creation or installation fails, the error is returned
unchanged (not wrapped, not retried) and the publish step never runs: no
scratch-to-cache persistence is performed, leaving the content-addressed
namespace untouched. -/
theorem build_failure_no_publish (w : World) (interp : Interpreter)
    (res : Resolution) (cache_entry : FsPath) (queries d : Nat)
    (e : ProjectError)
    (hd : w.venv_dir = Except.ok d)
    (hfail :
      w.create_venv ⟨scratchPath d, interp, Prompt.none, false, OnExisting.remove⟩
          = Except.error e ∨
      ∃ v, w.create_venv
            ⟨scratchPath d, interp, Prompt.none, false, OnExisting.remove⟩
          = Except.ok v ∧
        w.syncOutcome ⟨v, res, Modifications.exact⟩ = Except.error e) :
    (build w interp res cache_entry queries).1 = Except.error e ∧
    (build w interp res cache_entry queries).2.persistCalls = [] := by
  rcases hfail with hv | ⟨v, hv, hs⟩
  · simp [build, hd, hv]
  · simp [build, hd, hv, hs]

/-- Witness for C5: in the world where virtualenv creation fails with an I/O
error, the same error is returned and nothing is published. -/
theorem build_failure_no_publish_witness :
    (build exWorldVenvFail exInterp [] ["environments", "1", "2"] 0).1 =
      Except.error (ProjectError.ioError 7) ∧
    (build exWorldVenvFail exInterp [] ["environments", "1", "2"] 0).2.persistCalls
      = [] :=
  build_failure_no_publish exWorldVenvFail exInterp [] ["environments", "1", "2"]
    0 0 (ProjectError.ioError 7) rfl (Or.inl rfl)

/-- C6: when the resolved base executable (symlink resolution on unix,
base-prefix elsewhere) equals the interpreter's own executable,
`base_interpreter` returns the input interpreter itself with zero metadata
queries; otherwise it performs the metadata query at the base path and
returns its result. -/
theorem base_interpreter_spec (w : World) (i : Interpreter) (p : FsPath)
    (hp : (if w.isUnix then w.find_base_python i else w.to_base_python i)
      = Except.ok p) :
    (p = i.sysExecutable → base_interpreter w i = Except.ok (i, 0)) ∧
    (p ≠ i.sysExecutable →
      base_interpreter w i = (w.query p).map (fun base => (base, 1))) := by
  constructor
  · intro h
    simp [base_interpreter, hp, h]
  · intro h
    cases hq : w.query p with
    | error e => simp [base_interpreter, hp, h, hq, Except.map]
    | ok b => simp [base_interpreter, hp, h, hq, Except.map]

/-- Witness for C6: an interpreter that is its own base is returned as-is,
with no metadata query. -/
theorem base_interpreter_spec_witness :
    base_interpreter exWorldHit exInterp = Except.ok (exInterp, 0) :=
  (base_interpreter_spec exWorldHit exInterp ["usr", "bin", "python3"] rfl).1 rfl

/-- C7: the cache entry is a pure, deterministic function of the digest pair
under the fixed `Environments` bucket: the entry for a canonicalized
executable and a resolution is the fixed-bucket path of the interpreter
digest and the resolution digest, and any two resolutions holding the same
distribution set (names distinct) map to the same entry — no randomness and
no timestamp enter the location. -/
theorem entryPath_deterministic (exe : FsPath) (r1 r2 : Resolution)
    (hperm : r1.Perm r2) (hnd : (r1.map Distribution.name).Nodup) :
    entryPath (cache_digest exe) (resolutionHash r1) =
      ["environments", toString (cache_digest exe),
        toString (resolutionHash r1)] ∧
    entryPath (cache_digest exe) (resolutionHash r1) =
      entryPath (cache_digest exe) (resolutionHash r2) := by
  constructor
  · rfl
  · unfold resolutionHash
    rw [sortDistributions_perm_eq r1 r2 hperm hnd]

/-- Witness for C7: the two permuted two-distribution resolutions map to the
same cache entry for the same canonicalized executable. -/
theorem entryPath_deterministic_witness :
    entryPath (cache_digest ["usr", "bin", "python3"])
        (resolutionHash [⟨"b", "1.0", "s"⟩, ⟨"a", "2.0", "s"⟩]) =
      entryPath (cache_digest ["usr", "bin", "python3"])
        (resolutionHash [⟨"a", "2.0", "s"⟩, ⟨"b", "1.0", "s"⟩]) :=
  (entryPath_deterministic ["usr", "bin", "python3"] _ _
    (by decide) (by decide)).2
